import Mathlib

/-!
Verification development for the express-api-server repository.

The embedding models the two request handlers of
src/Controllers/stocks-controller.js (put_stocks and get_stocks) as pure
functions over an explicit server state: a flag saying whether the
connection pool has been initialized, a deterministic backend outcome for
the single storage call the handler makes, the parsed JSON request body,
and the table contents as a list of rows.

JSON values arriving in a request body are modelled by JsValue (null,
number, string); a body is an association list from field names to values,
so an absent key denotes the JavaScript value undefined.  The pg driver
serializes both undefined and null parameters as SQL NULL, which toParam
captures.  Numbers are modelled as rationals.
-/

namespace StocksApi

/-- A JSON value as it can appear in a request body field. -/
inductive JsValue where
  | vNull : JsValue
  | vNum : Rat → JsValue
  | vStr : String → JsValue
deriving DecidableEq, Repr

/-- JavaScript truthiness for the values modelled: null is falsy, a number
is falsy exactly when it is 0, a string is falsy exactly when empty. -/
def JsValue.truthy : JsValue → Bool
  | .vNull => false
  | .vNum q => decide (q ≠ 0)
  | .vStr s => decide (s ≠ "")

/-- A parsed JSON request body: an association list from field names to
values.  A key that is absent models the value undefined obtained by
destructuring. -/
abbrev Body := List (String × JsValue)

/-- Truthiness of a destructured field: undefined (absent key) is falsy,
otherwise JavaScript truthiness of the value.  This models the tests
(!pool) and (!symbol) in the source. -/
def falsyOpt : Option JsValue → Bool
  | none => true
  | some v => ! v.truthy

/-- A value as persisted in a column of the stock_analysis_results table. -/
inductive DbValue where
  | dbNull : DbValue
  | dbNum : Rat → DbValue
  | dbStr : String → DbValue
deriving DecidableEq, Repr

/-- How the pg driver serializes a destructured request-body field as a
query parameter: undefined and null both become SQL NULL; numbers and
strings pass through unchanged. -/
def toParam : Option JsValue → DbValue
  | none => .dbNull
  | some .vNull => .dbNull
  | some (.vNum q) => .dbNum q
  | some (.vStr s) => .dbStr s

/-- One row of the stock_analysis_results table, with the columns created
by initializePool.  Every column is modelled as a DbValue; NULL is
DbValue.dbNull. -/
structure StockRow where
  symbol : DbValue
  price : DbValue
  volume : DbValue
  pe_ratio : DbValue
  dividend_yield : DbValue
  one_year_target : DbValue
  news_summaries_json : DbValue
  last_analysis_timestamp : DbValue
deriving DecidableEq, Repr

/-- The row built by the INSERT of put_stocks from the values array
(source lines 107-118): each column receives the corresponding
destructured body field, serialized by the driver.  The dividend_yield
column receives the body field named divident_yield, exactly as the
source destructures and maps it.  The last_analysis_timestamp column is
always listed in the INSERT, so the table-level default never applies on
this path: an absent timestamp field is sent as NULL. -/
def insertRow (body : Body) : StockRow :=
  { symbol := toParam (body.lookup "symbol")
    price := toParam (body.lookup "price")
    volume := toParam (body.lookup "volume")
    pe_ratio := toParam (body.lookup "pe_ratio")
    dividend_yield := toParam (body.lookup "divident_yield")
    one_year_target := toParam (body.lookup "one_year_target")
    news_summaries_json := toParam (body.lookup "news_summaries_json")
    last_analysis_timestamp := toParam (body.lookup "last_analysis_timestamp") }

/-- Outcome of the single storage interaction a handler performs:
acquiring a client from the pool can fail, the query on the acquired
client can fail, or everything succeeds.  Failures carry the backend
error message (err.message in the source). -/
inductive Backend where
  | ok : Backend
  | connectFail : String → Backend
  | queryFail : String → Backend
deriving DecidableEq, Repr

/-- The JSON body of an HTTP response, as assembled by the handlers:
status code plus the optional error, details, message, data and rows
fields the source writes. -/
structure Response where
  status : Nat
  error : Option String
  details : Option String
  message : Option String
  data : Option StockRow
  rows : Option (List StockRow)
deriving DecidableEq, Repr

/-- Result of running a handler: the response sent, the table contents
afterwards, whether a client was acquired from the pool, and whether an
acquired client was released (the finally block). -/
structure HandlerResult where
  resp : Response
  store : List StockRow
  acquired : Bool
  released : Bool
deriving DecidableEq, Repr

/-- The PUT /api/stocks handler (source lines 82-139).  Checks the pool
handle first, then the symbol field, then performs the parameterized
insert; the catch branch maps any storage failure to a 500 response with
the backend message in details, and the finally branch releases the
client exactly when one was acquired. -/
def put_stocks (poolInit : Bool) (backend : Backend) (body : Body)
    (store : List StockRow) : HandlerResult :=
  if poolInit = false then
    { resp := { status := 500
                error := some "Database connection not available. Please check server logs."
                details := none, message := none, data := none, rows := none }
      store := store, acquired := false, released := false }
  else if falsyOpt (body.lookup "symbol") then
    { resp := { status := 400
                error := some "Missing required field: symbol."
                details := none, message := none, data := none, rows := none }
      store := store, acquired := false, released := false }
  else
    match backend with
    | .connectFail m =>
      { resp := { status := 500
                  error := some "Failed to save stock data."
                  details := some m, message := none, data := none, rows := none }
        store := store, acquired := false, released := false }
    | .queryFail m =>
      { resp := { status := 500
                  error := some "Failed to save stock data."
                  details := some m, message := none, data := none, rows := none }
        store := store, acquired := true, released := true }
    | .ok =>
      { resp := { status := 201
                  error := none, details := none
                  message := some "Stock data saved successfully to stock_analysis_results."
                  data := some (insertRow body), rows := none }
        store := store ++ [insertRow body], acquired := true, released := true }

/-- The GET /api/stocks handler (source lines 141-165).  Checks the pool
handle, then runs SELECT * FROM stock_analysis_results LIMIT 100; the
LIMIT is modelled as taking the first 100 rows of the table.  The catch
branch maps any storage failure to a 500 response with the backend
message in details, and the finally branch releases the client exactly
when one was acquired. -/
def get_stocks (poolInit : Bool) (backend : Backend)
    (store : List StockRow) : HandlerResult :=
  if poolInit = false then
    { resp := { status := 500
                error := some "Database connection not available."
                details := none, message := none, data := none, rows := none }
      store := store, acquired := false, released := false }
  else
    match backend with
    | .connectFail m =>
      { resp := { status := 500
                  error := some "Failed to retrieve stocks."
                  details := some m, message := none, data := none, rows := none }
        store := store, acquired := false, released := false }
    | .queryFail m =>
      { resp := { status := 500
                  error := some "Failed to retrieve stocks."
                  details := some m, message := none, data := none, rows := none }
        store := store, acquired := true, released := true }
    | .ok =>
      { resp := { status := 200
                  error := none, details := none, message := none, data := none
                  rows := some (store.take 100) }
        store := store, acquired := true, released := true }

/-- A concrete all-NULL row, used to populate concrete stores in witnesses. -/
def emptyRow : StockRow :=
  { symbol := .dbNull, price := .dbNull, volume := .dbNull
    pe_ratio := .dbNull, dividend_yield := .dbNull, one_year_target := .dbNull
    news_summaries_json := .dbNull, last_analysis_timestamp := .dbNull }

/-- A concrete request body populating every field the PUT handler reads. -/
def fullBody : Body :=
  [("symbol", JsValue.vStr "AAPL"), ("price", JsValue.vNum 150),
   ("volume", JsValue.vNum 1000000), ("pe_ratio", JsValue.vNum 30),
   ("divident_yield", JsValue.vNum 1), ("one_year_target", JsValue.vNum 200),
   ("news_summaries_json", JsValue.vStr "news"),
   ("last_analysis_timestamp", JsValue.vStr "2024-01-01T00:00:00Z")]

/-- Claim C1, counterexample: a payload supplying the literal 0 for price
(with a valid symbol) ends with the price column holding the number 0,
not NULL: the handler performs no truthiness coercion on numeric fields. -/
theorem put_zero_price_not_stored_null :
    ¬ ((put_stocks true Backend.ok
          [("symbol", JsValue.vStr "AAPL"), ("price", JsValue.vNum 0)] []).store.map
        StockRow.price = [DbValue.dbNull]) ∧
    (put_stocks true Backend.ok
          [("symbol", JsValue.vStr "AAPL"), ("price", JsValue.vNum 0)] []).store.map
        StockRow.price = [DbValue.dbNum 0] := by
  decide

/-- Claim C1, amended: the handler passes every numeric input field through
to the insert unmodified; a supplied number q (including 0) is stored as
the number q, and an absent field is stored as NULL.  The dividend_yield
column is fed from the body field named divident_yield. -/
theorem put_numeric_fields_passthrough (body : Body) (store : List StockRow)
    (hsym : falsyOpt (body.lookup "symbol") = false) :
    (put_stocks true Backend.ok body store).store = store ++ [insertRow body] ∧
    (∀ q : Rat, body.lookup "price" = some (JsValue.vNum q) →
      (insertRow body).price = DbValue.dbNum q) ∧
    (body.lookup "price" = none → (insertRow body).price = DbValue.dbNull) ∧
    (∀ q : Rat, body.lookup "volume" = some (JsValue.vNum q) →
      (insertRow body).volume = DbValue.dbNum q) ∧
    (body.lookup "volume" = none → (insertRow body).volume = DbValue.dbNull) ∧
    (∀ q : Rat, body.lookup "pe_ratio" = some (JsValue.vNum q) →
      StockRow.pe_ratio (insertRow body) = DbValue.dbNum q) ∧
    (body.lookup "pe_ratio" = none →
      StockRow.pe_ratio (insertRow body) = DbValue.dbNull) ∧
    (∀ q : Rat, body.lookup "divident_yield" = some (JsValue.vNum q) →
      (insertRow body).dividend_yield = DbValue.dbNum q) ∧
    (body.lookup "divident_yield" = none →
      (insertRow body).dividend_yield = DbValue.dbNull) ∧
    (∀ q : Rat, body.lookup "one_year_target" = some (JsValue.vNum q) →
      (insertRow body).one_year_target = DbValue.dbNum q) ∧
    (body.lookup "one_year_target" = none →
      (insertRow body).one_year_target = DbValue.dbNull) := by
  refine ⟨by simp [put_stocks, hsym], ?_, ?_, ?_, ?_, ?_, ?_, ?_, ?_, ?_, ?_⟩ <;>
    first
      | (intro q hq; simp [insertRow, hq, toParam])
      | (intro hq; simp [insertRow, hq, toParam])

/-- Witness for the amended C1: on a concrete payload with price 0 the
stored price is the number 0. -/
theorem put_numeric_fields_passthrough_witness :
    (insertRow [("symbol", JsValue.vStr "AAPL"), ("price", JsValue.vNum 0)]).price =
      DbValue.dbNum 0 :=
  (put_numeric_fields_passthrough
      [("symbol", JsValue.vStr "AAPL"), ("price", JsValue.vNum 0)] []
      (by decide)).2.1 0 (by decide)

/-- Claim C2, evaluated at the failing input: a payload omitting
last_analysis_timestamp ends with a NULL timestamp column.  The INSERT
lists the column explicitly and the driver sends the undefined
destructured field as NULL, so the table-level default CURRENT_TIMESTAMP
never applies on this path. -/
theorem put_omitted_timestamp_inserts_null :
    (put_stocks true Backend.ok [("symbol", JsValue.vStr "AAPL")] []).store.map
      StockRow.last_analysis_timestamp = [DbValue.dbNull] := by
  decide

/-- Claim C3: with the pool initialized, a payload whose symbol is absent,
null or the empty string is rejected with status 400, an error message
containing the word symbol, an unchanged store and no client acquisition;
and this is the only required-field check: any payload with a truthy
symbol reaches the insert and gets status 201. -/
theorem put_missing_symbol_rejected (backend : Backend) (body : Body)
    (store : List StockRow)
    (h : body.lookup "symbol" = none ∨ body.lookup "symbol" = some JsValue.vNull ∨
         body.lookup "symbol" = some (JsValue.vStr "")) :
    (put_stocks true backend body store).resp.status = 400 ∧
    (∃ pre post : String,
      (put_stocks true backend body store).resp.error = some (pre ++ "symbol" ++ post)) ∧
    (put_stocks true backend body store).store = store ∧
    (put_stocks true backend body store).acquired = false ∧
    (∀ b2 : Body, falsyOpt (b2.lookup "symbol") = false →
      (put_stocks true Backend.ok b2 store).resp.status = 201) := by
  have hfals : falsyOpt (body.lookup "symbol") = true := by
    rcases h with h | h | h <;> simp [falsyOpt, h, JsValue.truthy]
  refine ⟨by simp [put_stocks, hfals], ?_, by simp [put_stocks, hfals],
    by simp [put_stocks, hfals], ?_⟩
  · exact ⟨"Missing required field: ", ".", by simp [put_stocks, hfals]⟩
  · intro b2 h2; simp [put_stocks, h2]

/-- Witness for C3 at the empty payload: symbol is absent, the response is
400 and the store stays empty. -/
theorem put_missing_symbol_rejected_witness :
    (put_stocks true Backend.ok [] []).resp.status = 400 ∧
    (put_stocks true Backend.ok [] []).store = [] :=
  ⟨(put_missing_symbol_rejected Backend.ok [] [] (Or.inl rfl)).1,
   (put_missing_symbol_rejected Backend.ok [] [] (Or.inl rfl)).2.2.1⟩

/-- Claim C4: with the pool initialized and the backend succeeding, any
payload whose symbol is a non-empty string is accepted with status 201,
the row is appended to the store, and the stored symbol column is exactly
the input string. -/
theorem put_valid_symbol_inserts (body : Body) (store : List StockRow) (s : String)
    (hs : body.lookup "symbol" = some (JsValue.vStr s)) (hne : s ≠ "") :
    (put_stocks true Backend.ok body store).resp.status = 201 ∧
    (put_stocks true Backend.ok body store).store = store ++ [insertRow body] ∧
    (insertRow body).symbol = DbValue.dbStr s := by
  have hfals : falsyOpt (body.lookup "symbol") = false := by
    simp [falsyOpt, hs, JsValue.truthy, hne]
  exact ⟨by simp [put_stocks, hfals], by simp [put_stocks, hfals],
    by simp [insertRow, hs, toParam]⟩

/-- Witness for C4 on a concrete one-field payload with symbol AAPL. -/
theorem put_valid_symbol_inserts_witness :
    (put_stocks true Backend.ok [("symbol", JsValue.vStr "AAPL")] []).resp.status = 201 ∧
    (insertRow [("symbol", JsValue.vStr "AAPL")]).symbol = DbValue.dbStr "AAPL" :=
  ⟨(put_valid_symbol_inserts [("symbol", JsValue.vStr "AAPL")] [] "AAPL"
      (by decide) (by decide)).1,
   (put_valid_symbol_inserts [("symbol", JsValue.vStr "AAPL")] [] "AAPL"
      (by decide) (by decide)).2.2⟩

/-- Claim C5: with the pool initialized and the backend succeeding, GET
responds 200 with the first 100 rows of the store, so it returns at most
100 records, exactly 100 when the store holds 101 or more, and an empty
array (not an error) on the empty store. -/
theorem get_caps_at_100 (store : List StockRow) :
    (get_stocks true Backend.ok store).resp.status = 200 ∧
    (get_stocks true Backend.ok store).resp.rows = some (store.take 100) ∧
    (store.take 100).length ≤ 100 ∧
    (101 ≤ store.length → (store.take 100).length = 100) ∧
    (get_stocks true Backend.ok []).resp.status = 200 ∧
    (get_stocks true Backend.ok []).resp.rows = some [] := by
  refine ⟨by simp [get_stocks], by simp [get_stocks], ?_, ?_,
    by simp [get_stocks], by simp [get_stocks]⟩
  · simp [List.length_take]
  · intro h; simp [List.length_take]; omega

/-- Witness for C5 on a concrete store of 101 rows: GET returns exactly
100 of them. -/
theorem get_caps_at_100_witness :
    101 ≤ (List.replicate 101 emptyRow).length ∧
    ((List.replicate 101 emptyRow).take 100).length = 100 :=
  ⟨by simp, (get_caps_at_100 (List.replicate 101 emptyRow)).2.2.2.1 (by simp)⟩

/-- Claim C6, counterexample: with 100 rows already stored, a PUT of a
fully populated payload succeeds with 201, yet the subsequent GET returns
only the first 100 rows of the table and the freshly inserted row is not
among them, so no returned record matches the inserted one. -/
theorem put_full_store_roundtrip_fails :
    (put_stocks true Backend.ok fullBody (List.replicate 100 emptyRow)).resp.status = 201 ∧
    (get_stocks true Backend.ok
        ((put_stocks true Backend.ok fullBody (List.replicate 100 emptyRow)).store)).resp.rows =
      some (List.replicate 100 emptyRow) ∧
    insertRow fullBody ∉ List.replicate 100 emptyRow := by
  have hsym : falsyOpt (fullBody.lookup "symbol") = false := by decide
  have hstore : (put_stocks true Backend.ok fullBody (List.replicate 100 emptyRow)).store =
      List.replicate 100 emptyRow ++ [insertRow fullBody] := by
    simp [put_stocks, hsym]
  have htake : (List.replicate 100 emptyRow ++ [insertRow fullBody]).take 100 =
      List.replicate 100 emptyRow := List.take_left' (by simp)
  refine ⟨by simp [put_stocks, hsym], ?_, ?_⟩
  · rw [hstore]; simp [get_stocks, htake]
  · intro hmem
    have heq : insertRow fullBody = emptyRow := List.eq_of_mem_replicate hmem
    have hsymbol : (insertRow fullBody).symbol = DbValue.dbStr "AAPL" := by decide
    rw [heq] at hsymbol
    exact absurd hsymbol (by decide)

/-- Claim C6, amended round-trip: with the pool initialized, the backend
succeeding, a payload with a truthy symbol, and fewer than 100 rows
already stored, a GET right after the PUT returns every stored row, among
them the exact row just inserted; every field of that row is the inserted
value.  The bound is forced by the retrieval cap: the query returns at
most 100 rows in an unspecified order, so a row beyond the cap may be
missed (see the counterexample at a 100-row store). -/
theorem put_then_get_roundtrip_bounded (body : Body) (store : List StockRow)
    (hsym : falsyOpt (body.lookup "symbol") = false)
    (hlen : store.length < 100) :
    (get_stocks true Backend.ok ((put_stocks true Backend.ok body store).store)).resp.rows =
      some (store ++ [insertRow body]) ∧
    insertRow body ∈ store ++ [insertRow body] := by
  have hstore : (put_stocks true Backend.ok body store).store = store ++ [insertRow body] := by
    simp [put_stocks, hsym]
  have htake : (store ++ [insertRow body]).take 100 = store ++ [insertRow body] :=
    List.take_of_length_le (by simp; omega)
  refine ⟨?_, by simp⟩
  rw [hstore]
  simp [get_stocks, htake]

/-- Witness for the amended C6: insert a fully populated payload into the
empty store, then GET returns exactly that one row. -/
theorem put_then_get_roundtrip_bounded_witness :
    (get_stocks true Backend.ok ((put_stocks true Backend.ok fullBody []).store)).resp.rows =
      some ([] ++ [insertRow fullBody]) ∧
    insertRow fullBody ∈ [] ++ [insertRow fullBody] :=
  put_then_get_roundtrip_bounded fullBody [] (by decide) (by decide)

/-- Claim C7: while the pool handle is unset, both handlers respond 500
with a connection-unavailable message, leave the store untouched and never
acquire a client (no storage operation is attempted), for every backend
and payload. -/
theorem uninitialized_pool_fails_fast (backend : Backend) (body : Body)
    (store : List StockRow) :
    (put_stocks false backend body store).resp.status = 500 ∧
    (put_stocks false backend body store).resp.error =
      some "Database connection not available. Please check server logs." ∧
    (put_stocks false backend body store).store = store ∧
    (put_stocks false backend body store).acquired = false ∧
    (get_stocks false backend store).resp.status = 500 ∧
    (get_stocks false backend store).resp.error =
      some "Database connection not available." ∧
    (get_stocks false backend store).store = store ∧
    (get_stocks false backend store).acquired = false := by
  simp [put_stocks, get_stocks]

/-- Claim C8: any backend failure (client acquisition or query) surfaces
as a 500 response with a human-readable error and the backend message in
details, without changing the store (no retry); and on every execution
path of both handlers the client is released exactly when it was
acquired. -/
theorem backend_failure_maps_to_500 (m : String) (body : Body)
    (store : List StockRow)
    (hsym : falsyOpt (body.lookup "symbol") = false) :
    (put_stocks true (Backend.queryFail m) body store).resp.status = 500 ∧
    (put_stocks true (Backend.queryFail m) body store).resp.error =
      some "Failed to save stock data." ∧
    (put_stocks true (Backend.queryFail m) body store).resp.details = some m ∧
    (put_stocks true (Backend.queryFail m) body store).store = store ∧
    (put_stocks true (Backend.connectFail m) body store).resp.status = 500 ∧
    (put_stocks true (Backend.connectFail m) body store).resp.details = some m ∧
    (get_stocks true (Backend.queryFail m) store).resp.status = 500 ∧
    (get_stocks true (Backend.queryFail m) store).resp.error =
      some "Failed to retrieve stocks." ∧
    (get_stocks true (Backend.queryFail m) store).resp.details = some m ∧
    (get_stocks true (Backend.connectFail m) store).resp.status = 500 ∧
    (get_stocks true (Backend.connectFail m) store).resp.details = some m ∧
    (∀ (p : Bool) (bk : Backend) (b : Body) (st : List StockRow),
      (put_stocks p bk b st).released = (put_stocks p bk b st).acquired) ∧
    (∀ (p : Bool) (bk : Backend) (st : List StockRow),
      (get_stocks p bk st).released = (get_stocks p bk st).acquired) := by
  refine ⟨by simp [put_stocks, hsym], by simp [put_stocks, hsym],
    by simp [put_stocks, hsym], by simp [put_stocks, hsym],
    by simp [put_stocks, hsym], by simp [put_stocks, hsym],
    by simp [get_stocks], by simp [get_stocks], by simp [get_stocks],
    by simp [get_stocks], by simp [get_stocks], ?_, ?_⟩
  · intro p bk b st
    unfold put_stocks
    split
    · rfl
    · split
      · rfl
      · cases bk <;> rfl
  · intro p bk st
    unfold get_stocks
    split
    · rfl
    · cases bk <;> rfl

/-- Witness for C8 at a concrete failing query: the PUT reports 500 with
the backend text in details and the client is released. -/
theorem backend_failure_maps_to_500_witness :
    (put_stocks true (Backend.queryFail "boom")
        [("symbol", JsValue.vStr "AAPL")] []).resp.details = some "boom" ∧
    (put_stocks true (Backend.queryFail "boom")
        [("symbol", JsValue.vStr "AAPL")] []).released =
      (put_stocks true (Backend.queryFail "boom")
        [("symbol", JsValue.vStr "AAPL")] []).acquired :=
  ⟨(backend_failure_maps_to_500 "boom" [("symbol", JsValue.vStr "AAPL")] []
      (by decide)).2.2.1,
   (backend_failure_maps_to_500 "boom" [("symbol", JsValue.vStr "AAPL")] []
      (by decide)).2.2.2.2.2.2.2.2.2.2.2.1 true (Backend.queryFail "boom")
      [("symbol", JsValue.vStr "AAPL")] []⟩

/-- Claim C9: the dividend_yield column is fed from the inbound field
literally named divident_yield; a payload carrying only the correctly
spelled dividend_yield key has that value ignored and NULL stored in the
column, and in general the column always equals the serialized
divident_yield field. -/
theorem dividend_yield_reads_misspelled_field (body : Body) (store : List StockRow)
    (v : JsValue)
    (hsym : falsyOpt (body.lookup "symbol") = false)
    (_hcorr : body.lookup "dividend_yield" = some v)
    (hmiss : body.lookup "divident_yield" = none) :
    (put_stocks true Backend.ok body store).store = store ++ [insertRow body] ∧
    (insertRow body).dividend_yield = DbValue.dbNull ∧
    (∀ b2 : Body, (insertRow b2).dividend_yield = toParam (b2.lookup "divident_yield")) := by
  refine ⟨by simp [put_stocks, hsym], by simp [insertRow, hmiss, toParam], ?_⟩
  intro b2; rfl

/-- Witness for C9: a payload with symbol and only the correctly spelled
dividend_yield key stores NULL in the dividend_yield column. -/
theorem dividend_yield_reads_misspelled_field_witness :
    (insertRow [("symbol", JsValue.vStr "AAPL"),
        ("dividend_yield", JsValue.vNum 5)]).dividend_yield = DbValue.dbNull :=
  (dividend_yield_reads_misspelled_field
      [("symbol", JsValue.vStr "AAPL"), ("dividend_yield", JsValue.vNum 5)] []
      (JsValue.vNum 5) (by decide) (by decide) (by decide)).2.1

/-- Claim C10: the pool check runs before symbol validation: a request
missing the symbol while the pool is uninitialized gets the 500
connection-unavailable response, not the 400 validation response. -/
theorem pool_check_precedes_symbol_validation (backend : Backend) (body : Body)
    (store : List StockRow)
    (_h : body.lookup "symbol" = none) :
    (put_stocks false backend body store).resp.status = 500 ∧
    (put_stocks false backend body store).resp.status ≠ 400 ∧
    (put_stocks false backend body store).resp.error =
      some "Database connection not available. Please check server logs." := by
  refine ⟨by simp [put_stocks], ?_, by simp [put_stocks]⟩
  simp [put_stocks]

/-- Witness for C10 at the empty payload with an uninitialized pool. -/
theorem pool_check_precedes_symbol_validation_witness :
    (put_stocks false Backend.ok [] []).resp.status = 500 ∧
    (put_stocks false Backend.ok [] []).resp.status ≠ 400 :=
  ⟨(pool_check_precedes_symbol_validation Backend.ok [] [] rfl).1,
   (pool_check_precedes_symbol_validation Backend.ok [] [] rfl).2.1⟩

end StocksApi
